import Mathlib

/-!
Verification of the picosqlite engine (worker thread, directive interpreter)
and of its windowed table viewport, against a shallow embedding of
`picosqlite.py` in Lean 4.

The embedding keeps the Python names wherever Lean allows it.  Machine
integers are modelled as `Nat`/`Int` (Python integers are unbounded, so no
wrap-around is needed).  Fallible code is modelled with `Except`, the Tk
tree widget of a table view is modelled as the list of its items in `iid`
order, and calls into the sqlite C library are modelled as explicit
"outcome" parameters describing what the library returned (or raised).
-/

namespace Picosqlite

/-! ## `eat_atmost` (picosqlite.py, lines 575-587)

```python
def eat_atmost(it, n=1000):
    objects = []
    for i, obj in enumerate(it):
        if i >= n:
            break
        objects.append(obj)
    try:
        next(it)
    except StopIteration:
        truncated = False
    else:
        truncated = True
    return objects, truncated
```

The iterator is modelled as the list of rows it would yield, in order.
`eat_atmost_loop n i xs` embeds the `for` loop started at counter value
`i` with `xs` the rows not yet consumed; it returns the pair
(collected objects, rows still unconsumed after the loop).  Note that when
the loop breaks at `i >= n` the element bound to `obj` has already been
consumed from the iterator.  `eat_atmost` returns the collected objects,
the `truncated` flag, and additionally the total number of rows consumed
from the iterator (an observable the claims talk about). -/

def eat_atmost_loop (n : Nat) : Nat → List α → List α × List α
  | _, [] => ([], [])
  | i, x :: xs =>
    if n ≤ i then ([], xs)
    else
      let p := eat_atmost_loop n (i + 1) xs
      (x :: p.1, p.2)

def eat_atmost (it : List α) (n : Nat) : List α × Bool × Nat :=
  let p := eat_atmost_loop n 0 it
  match p.2 with
  | [] => (p.1, false, it.length)
  | _ :: rest => (p.1, true, it.length - rest.length)

/-! ## Python text

Query text must be inspected character by character (strip, leading dot,
word splitting), so it is modelled as its list of characters — Lean's
`String` builtins do not reduce inside the kernel.  String literals enter
the model through `String.toList`. -/

abbrev PyStr := List Char

/-- Python `str.strip()`: remove leading and trailing whitespace. -/
def py_strip (s : PyStr) : PyStr :=
  ((s.dropWhile Char.isWhitespace).reverse.dropWhile Char.isWhitespace).reverse

/-- Python `str.rstrip(";")`: remove trailing `;` characters. -/
def py_rstrip_semicolon (s : PyStr) : PyStr :=
  (s.reverse.dropWhile (fun c => c = ';')).reverse

/-! ## Directive errors (picosqlite.py, lines 544-563)

`DirectiveError` and its subclass `DirectiveNotFound` are modelled by one
structure with a `not_found` discriminant.  `DirectiveError.__init__`
copies `argv[0]` into `directive` when only `argv` was given. -/

structure DirectiveError where
  message : String
  argv : Option (List PyStr)
  directive : Option PyStr
  not_found : Bool
deriving DecidableEq, Repr

/-- Constructor `DirectiveError.__init__(message, argv=None, directive=None)`. -/
def DirectiveError.init (message : String) (argv : Option (List PyStr))
    (directive : Option PyStr) : DirectiveError :=
  { message := message
    argv := argv
    directive :=
      match directive, argv with
      | none, some l => l.head?
      | d, _ => d
    not_found := false }

/-- Constructor `DirectiveNotFound.__init__(argv)`: message is empty, `directive`
becomes `argv[0]` (dot included). -/
def DirectiveNotFound.init (argv : List PyStr) : DirectiveError :=
  { DirectiveError.init "" (some argv) none with not_found := true }

/-! ## Exceptions crossing the handler boundary

The `handler` decorator (lines 251-293) distinguishes `sqlite3.Error`,
`sqlite3.Warning`, `DirectiveError` and any other `Exception`.  These four
disjoint possibilities are one inductive; sqlite-reported conditions carry
only their message, since their content never matters to the engine. -/

deriving instance DecidableEq for Except

inductive PyExn where
  | sqlite_error (msg : String)
  | sqlite_warning (msg : String)
  | directive_error (e : DirectiveError)
  | other_error (msg : String)
deriving DecidableEq, Repr

/-! ## Rows, cursors and column identifiers

A row is the tuple of its rendered values; a cursor is what
`sqlite3.Connection.execute` returned: its `description` (the column
names, or `None` for statements yielding no data) and the rows it will
yield. -/

abbrev Row := List String

structure Cursor where
  description : Option (List String)
  rows : List Row
deriving DecidableEq

/-- The `while new_name in seen` loop of `get_column_id` (lines 1888-1895),
with the counter `i` explicit and fuel bounding the number of iterations;
`seen.length + 1` iterations always suffice because the candidate names
`name`, `name<1>`, `name<2>`, ... are pairwise distinct. -/
def get_column_id_loop (name : String) (seen : List String) :
    Nat → Nat → String → String
  | 0, _, new_name => new_name
  | fuel + 1, i, new_name =>
    if new_name ∈ seen then
      get_column_id_loop name seen fuel (i + 1) (name ++ "<" ++ toString i ++ ">")
    else new_name

def get_column_id (name : String) (seen : List String) : String :=
  get_column_id_loop name seen (seen.length + 1) 1 name

/-- Function `get_column_ids` (lines 1898-1908): compute unique column ids from the
cursor description, threading the `seen` set (modelled as a list). -/
def get_column_ids_go (seen : List String) :
    List String → List String × List String
  | [] => ([], [])
  | name :: rest =>
    let id := get_column_id name seen
    let p := get_column_ids_go (id :: seen) rest
    (id :: p.1, name :: p.2)

def get_column_ids (description : List String) : List String × List String :=
  get_column_ids_go [] description

/-! ## Directive parsing (lines 540-541)

`parse_directive(text)` is `shlex.split(text.strip().rstrip(";"))`.
`shlex.split` is modelled for quote-free and escape-free inputs, where it
coincides with splitting on whitespace; every directive text the claims
exercise is of that form. -/

def shlex_split_go (cur : PyStr) : PyStr → List PyStr
  | [] => if cur = [] then [] else [cur.reverse]
  | c :: rest =>
    if c.isWhitespace then
      if cur = [] then shlex_split_go [] rest
      else cur.reverse :: shlex_split_go [] rest
    else shlex_split_go (c :: cur) rest

def shlex_split (s : PyStr) : List PyStr :=
  shlex_split_go [] s

def parse_directive (text : PyStr) : List PyStr :=
  shlex_split (py_rstrip_semicolon (py_strip text))

/-! ## Database actions

The statements a request handler asks the sqlite library to run against
the live connection.  A result-carrying dispatch returns the list of
actions it issued; "no rows mutated" is "no action issued". -/

inductive DBAction where
  | execute (sql : PyStr)
  | run_script (filename : PyStr)
  | dump (filename : PyStr)
  | drop_all_tables
deriving DecidableEq, Repr

/-! ## The query payload (dataclass `QueryResult`, lines 227-240)

Only the payload fields; the bookkeeping fields shared with `SQLResult`
live in `SQLResultFields` below.  `QueryPayload.empty` is the payload a
handler gets when it returns `dict()` (all dataclass defaults). -/

structure QueryPayload where
  rows : Option (List Row)
  truncated : Bool
  column_ids : Option (List String)
  column_names : Option (List String)
deriving DecidableEq

def QueryPayload.empty : QueryPayload := ⟨none, false, none, none⟩

/-! ## `_handle_directive` and the three directive handlers (lines 469-537)

Dispatch is by the verb `argv[0][1:]`; the fixed administrative set is
`run`, `dump`, `drop_all_tables`.  Each handler checks its arity before
doing anything, so a wrong arity issues no database action.  An arity
error raised inside a handler is re-raised by `_handle_directive` with its
`directive` (without dot) and `argv` fields filled in — `arity_error`
builds that final object directly. -/

def arity_error (message : String) (argv : List PyStr) (directive : PyStr) :
    DirectiveError :=
  { message := message
    argv := some argv
    directive := some directive
    not_found := false }

def handle_directive (argv : List PyStr) :
    Except PyExn (QueryPayload × List DBAction) :=
  let directive := (argv.headD []).drop 1
  if directive = "run".toList then
    if argv.length ≠ 2 then
      .error (.directive_error (arity_error
        ("expects 1 argument, not " ++ toString argv.length) argv directive))
    else .ok (QueryPayload.empty, [.run_script (argv.getD 1 [])])
  else if directive = "dump".toList then
    if argv.length ≠ 2 then
      .error (.directive_error (arity_error
        ("expects 1 argument, not " ++ toString argv.length) argv directive))
    else .ok (QueryPayload.empty, [.dump (argv.getD 1 [])])
  else if directive = "drop_all_tables".toList then
    if argv.length ≠ 1 then
      .error (.directive_error (arity_error
        ("expects no argument, not " ++ toString argv.length) argv directive))
    else .ok (QueryPayload.empty, [.drop_all_tables])
  else
    .error (.directive_error (DirectiveNotFound.init argv))

/-! ## `_handle_RunQuery` (lines 452-467)

The sqlite call `self._execute(query)` is modelled by the
`execute_outcome` parameter: what the library would return (a cursor) or
raise for this statement.  The directive path never reaches the library.
The function returns the payload (or the exception the Python body would
raise) together with the database actions issued. -/

def handle_RunQuery (query : PyStr) (execute_outcome : Except PyExn Cursor) :
    Except PyExn (QueryPayload × List DBAction) :=
  if query.length = 0 then .ok (QueryPayload.empty, [])
  else
    let q := py_strip query
    if ['.'].isPrefixOf q then handle_directive (parse_directive q)
    else
      match execute_outcome with
      | .error e => .error e
      | .ok cursor =>
        match cursor.description with
        | none => .ok (QueryPayload.empty, [.execute q])
        | some description =>
          let ids_names := get_column_ids description
          let eaten := eat_atmost cursor.rows 1000
          .ok ({ rows := some eaten.1
                 truncated := eaten.2.1
                 column_ids := some ids_names.1
                 column_names := some ids_names.2 },
               [.execute q])

/-! ## The `handler` decorator (lines 251-293)

Every handler body's outcome (normal payload, or the exception it raised)
is turned into exactly one result object; the `finally: return` guarantees
nothing escapes.  `started_at`/`stopped_at` are wall-clock timestamps and
are not modelled.  On an exception the payload keeps the result
dataclass's defaults, supplied here as `empty`. -/

structure SQLResultFields (π : Type) where
  error : Option PyExn
  warning : Option PyExn
  internal_error : Option PyExn
  payload : π
deriving DecidableEq

def handler_wrap {π : Type} (empty : π) (body : Except PyExn π) :
    SQLResultFields π :=
  match body with
  | .ok p => ⟨none, none, none, p⟩
  | .error (.sqlite_error m) => ⟨some (.sqlite_error m), none, none, empty⟩
  | .error (.sqlite_warning m) => ⟨none, some (.sqlite_warning m), none, empty⟩
  | .error (.directive_error e) => ⟨some (.directive_error e), none, none, empty⟩
  | .error (.other_error m) => ⟨none, none, some (.other_error m), empty⟩

/-- Number of failure fields set on a result; `has_error` of `SQLResult`
is `0 < failure_count`. -/
def failure_count {π : Type} (r : SQLResultFields π) : Nat :=
  (if r.error.isSome then 1 else 0)
    + (if r.warning.isSome then 1 else 0)
    + (if r.internal_error.isSome then 1 else 0)

/-- Handler `_handle_RunQuery` composed with its `handler` decorator, also
reporting the database actions issued (none when the body raised before
issuing any, as every directive error does). -/
def run_query_worker (query : PyStr) (execute_outcome : Except PyExn Cursor) :
    SQLResultFields QueryPayload × List DBAction :=
  match handle_RunQuery query execute_outcome with
  | .ok pa => (handler_wrap QueryPayload.empty (.ok pa.1), pa.2)
  | .error e => (handler_wrap QueryPayload.empty (.error e), [])

/-! ## The request loop (`SQLRunner.run`, lines 398-421)

The supported data requests and the dispatch of one request to its
handler.  The sqlite library's behaviour for each kind of call is an
explicit outcome in `WorkerEnv`.  `CloseDB` produces no result and
terminates the loop, and is outside the supported-request claims. -/

inductive Request where
  | LoadSchema
  | ViewTable (table_name : String) (offset : Nat) (limit : Nat)
  | RunQuery (query : PyStr)
deriving DecidableEq

/-- A `pragma table_info` column descriptor
(cid, name, type, notnull, dflt_value, pk). -/
structure ColumnDesc where
  cid : Nat
  name : String
  vtype : String
  notnull : Nat
  dflt_value : Option String
  pk : Nat
deriving DecidableEq

structure WorkerEnv where
  schema_outcome : Except PyExn (List (String × List ColumnDesc))
  view_outcome : Except PyExn Cursor
  query_outcome : Except PyExn Cursor

inductive ResultPayload where
  | schema (s : Option (List (String × List ColumnDesc)))
  | table_rows (rows : Option (List Row)) (column_ids : Option (List String))
      (column_names : Option (List String))
  | query (q : QueryPayload)
deriving DecidableEq

/-- One turn of the `run` loop on a supported request: the list of results
pushed for it.  `_handle_LoadSchema` returns the schema the library
enumerated; `_handle_ViewTable` reads the cursor of its `SELECT ... LIMIT
... OFFSET ...` and computes unique column ids; `_handle_RunQuery` is
above. -/
def process_request (env : WorkerEnv) :
    Request → List (SQLResultFields ResultPayload)
  | .LoadSchema =>
    [handler_wrap (.schema none)
      (env.schema_outcome.map (fun s => .schema (some s)))]
  | .ViewTable _ _ _ =>
    [handler_wrap (.table_rows none none none)
      (env.view_outcome.map (fun cursor =>
        let ids_names := get_column_ids (cursor.description.getD [])
        .table_rows (some cursor.rows) (some ids_names.1) (some ids_names.2)))]
  | .RunQuery q =>
    [handler_wrap (.query QueryPayload.empty)
      ((handle_RunQuery q env.query_outcome).map (fun pa => .query pa.1))]

/-! ## The windowed viewport (`NamedTableView`, lines 974-1177)

The Tk tree widget is modelled as `tree_items`, the list of its items in
`iid` order; the class invariant of the view is that the items' iids are
exactly `begin_window, ..., end_window - 1`, so `tree.delete(begin_window)`
is dropping the head and `tree.delete(end_window)` after decrementing
`end_window` is dropping the last element.  Scroll-position bookkeeping
(`tree.see`, reading the scrollbar) touches no field but
`previous_visible_item` and is otherwise not modelled.  `max_window_size`
and `inc_limit` are taken as already set (`on_tree_configure` has run). -/

def BUFFER_SIZE_FACTOR : Nat := 4

structure NamedTableView (α : Type) where
  begin_window : Nat
  end_window : Nat
  tree_items : List α
  previous_visible_item : Option Nat
  max_window_size : Nat
  inc_limit : Nat
deriving DecidableEq

/-- Snapshot type `NamedTableView.State` (lines 979-989), taken by
`save_state`. -/
structure ViewSnapshot where
  begin_window : Nat
  end_window : Nat
  visible_item : Option Nat
deriving DecidableEq

def ViewSnapshot.is_empty (st : ViewSnapshot) : Bool :=
  st.begin_window = 0 ∧ st.end_window = 0

/-- Method `_append_rows` (lines 1119-1124): insert each row at the end with iid
`end_window`, incrementing `end_window`. -/
def append_rows (s : NamedTableView α) (rows : List α) : NamedTableView α :=
  { s with tree_items := s.tree_items ++ rows
           end_window := s.end_window + rows.length }

/-! The three `while` loops of the class walk the window down one row per
iteration, so `end_window - begin_window` iterations always suffice; each
loop is embedded with that explicit iteration budget (structural recursion
that the kernel can evaluate), the wrapper supplying the budget. -/

/-- The head-eviction loop of `insert` (lines 1077-1079):
`while nb_view_items > max_window_size: tree.delete(begin_window);
begin_window += 1`. -/
def evict_head_loop : Nat → NamedTableView α → NamedTableView α
  | 0, s => s
  | fuel + 1, s =>
    if s.max_window_size < s.end_window - s.begin_window then
      evict_head_loop fuel { s with tree_items := s.tree_items.tail
                                    begin_window := s.begin_window + 1 }
    else s

def evict_head (s : NamedTableView α) : NamedTableView α :=
  evict_head_loop (s.end_window - s.begin_window) s

/-- The tail-eviction loop of `insert` (lines 1092-1095):
`while nb_view_items > max_window_size: end_window -= 1;
tree.delete(end_window)`. -/
def evict_tail_loop : Nat → NamedTableView α → NamedTableView α
  | 0, s => s
  | fuel + 1, s =>
    if s.max_window_size < s.end_window - s.begin_window then
      evict_tail_loop fuel { s with tree_items := s.tree_items.dropLast
                                    end_window := s.end_window - 1 }
    else s

def evict_tail (s : NamedTableView α) : NamedTableView α :=
  evict_tail_loop (s.end_window - s.begin_window) s

/-- Method `clear_all` (lines 1173-1177): `while end_window > begin_window:
end_window -= 1; tree.delete(end_window)`. -/
def clear_all_loop : Nat → NamedTableView α → NamedTableView α
  | 0, s => s
  | fuel + 1, s =>
    if s.begin_window < s.end_window then
      clear_all_loop fuel { s with tree_items := s.tree_items.dropLast
                                   end_window := s.end_window - 1 }
    else s

def clear_all (s : NamedTableView α) : NamedTableView α :=
  clear_all_loop (s.end_window - s.begin_window) s

/-- The branch chain of `insert` after the empty-window normalization
(lines 1057-1117): contained no-op, append-beyond-end then head eviction,
prepend-before-begin then tail eviction, otherwise full replacement.
Reading the visible item (for the final `tree.see`) resets
`previous_visible_item` to `None` in every branch past the no-op. -/
def insert_merge (s : NamedTableView α) (rows : List α) (offset : Nat) :
    NamedTableView α :=
  let first_row := offset
  let last_row := offset + rows.length
  if s.begin_window ≤ first_row ∧ last_row ≤ s.end_window then s
  else
    let s2 := { s with previous_visible_item := none }
    if s.begin_window ≤ first_row ∧ first_row ≤ s.end_window then
      let excess := last_row - s.end_window
      evict_head (append_rows s2 (rows.drop (rows.length - excess)))
    else if s.begin_window ≤ last_row ∧ last_row ≤ s.end_window then
      let excess := s.begin_window - first_row
      evict_tail { s2 with tree_items := rows.take excess ++ s2.tree_items
                           begin_window := s.begin_window - excess }
    else
      append_rows { clear_all s2 with begin_window := first_row
                                      end_window := first_row } rows

/-- Method `insert` (lines 1028-1117), the merge of an arriving `RowBatch`.
`limit` is only used by the `assert len(rows) <= limit` and the logging.
A zero-row batch returns immediately; a fully unloaded view (`begin ==
end == 0`) is first re-anchored at `first_row`; the rest is
`insert_merge`. -/
def NamedTableView.insert (s : NamedTableView α) (rows : List α)
    (offset _limit : Nat) : NamedTableView α :=
  let first_row := offset
  let last_row := offset + rows.length
  if first_row = last_row then s
  else
    insert_merge
      (if s.begin_window = 0 ∧ s.end_window = 0 then
        { s with begin_window := first_row, end_window := first_row }
       else s)
      rows offset

/-- Method `lazy_load` (lines 1126-1141).  The scrollbar fractions are modelled
as exact rationals and the `limit`/`offset` arithmetic as Python integer
arithmetic (`Int`).  The function returns the list of `fetch(offset,
limit)` calls it performs, in order; note that the second `if` reuses the
`limit` variable as reassigned by the first branch when that branch
fired. -/
def NamedTableView.lazy_load (s : NamedTableView α)
    (begin_index end_index : ℚ) : List (Int × Int) :=
  let limit0 : Int :=
    (s.max_window_size : Int) - ((s.end_window : Int) - (s.begin_window : Int))
  let limit1 : Int := if limit0 < (s.inc_limit : Int) then (s.inc_limit : Int)
                      else limit0
  if 0 < s.begin_window ∧ begin_index ≤ 1/5 then
    let offset0 : Int := (s.begin_window : Int) - limit1
    let offset : Int := if offset0 < 0 then 0 else offset0
    let limit2 : Int := (s.begin_window : Int) - offset
    (offset, limit2) ::
      (if (4/5 : ℚ) ≤ end_index then [((s.end_window : Int), limit2)] else [])
  else if (4/5 : ℚ) ≤ end_index then [((s.end_window : Int), limit1)]
  else []

/-- Method `_update_inc_limit` (lines 1149-1150). -/
def update_inc_limit (s : NamedTableView α) : NamedTableView α :=
  { s with inc_limit := s.max_window_size / BUFFER_SIZE_FACTOR }

/-- Method `save_state` (lines 1156-1159).  `get_visible_item()` reads the Tk
scrollbar; its value is an input of the model. -/
def NamedTableView.save_state (s : NamedTableView α)
    (visible_item : Option Nat) : ViewSnapshot :=
  ⟨s.begin_window, s.end_window, visible_item⟩

/-- Method `restore_state` (lines 1161-1171): empty snapshots return
immediately; otherwise clear the window, remember the visible row, set
`max_window_size` to the snapshot's span, update `inc_limit` and issue one
`fetch(state.begin_window, max_window_size)` — returned here as the
optional `(offset, limit)` pair of that call. -/
def NamedTableView.restore_state (s : NamedTableView α) (st : ViewSnapshot) :
    NamedTableView α × Option (Nat × Nat) :=
  if st.is_empty then (s, none)
  else
    let s1 := clear_all s
    let s2 := { s1 with previous_visible_item := st.visible_item
                        max_window_size := st.end_window - st.begin_window }
    let s3 := update_inc_limit s2
    (s3, some (st.begin_window, s3.max_window_size))

/-- The result of `SELECT * FROM t LIMIT limit OFFSET offset` on a table
whose rows, in order, are `table`. -/
def slice_table (table : List α) (offset limit : Nat) : List α :=
  (table.drop offset).take limit

/-! ## Fetch issuance (`Fetcher.__call__`, lines 1180-1193)

`Fetcher` carries no state of its own: it unconditionally appends one
`Request.ViewTable` to the runner's request queue.  `AppView` couples a
table's view with the queue of requests submitted and not yet answered,
and `scroll_step` is one scroll event: `lazy_load` runs and every
`fetch` it performs goes through the `Fetcher`. -/

def fetcher_call (table_name : String) (requests : List Request)
    (offset limit : Nat) : List Request :=
  requests ++ [Request.ViewTable table_name offset limit]

structure AppView (α : Type) where
  view : NamedTableView α
  requests : List Request
deriving DecidableEq

def scroll_step (table_name : String) (st : AppView α)
    (begin_index end_index : ℚ) : AppView α :=
  let issued := (st.view.lazy_load begin_index end_index).foldl
    (fun q f => fetcher_call table_name q f.1.toNat f.2.toNat) st.requests
  { st with requests := issued }

/-- Modelled from the spec: the fetch size the specification claims for
every `lazy_load` fetch, `max(max_window_size − resident_count,
increment)`, where `resident_count` is `nb_view_items` and `increment` is
`inc_limit`.  It is compared against the sizes `lazy_load` actually
requests. -/
def spec_fetch_size (s : NamedTableView α) : Int :=
  max ((s.max_window_size : Int) - ((s.end_window : Int) - (s.begin_window : Int)))
    (s.inc_limit : Int)

/-! # Theorems -/

/-! ## Characterization of `eat_atmost` -/

theorem eat_atmost_loop_eq (n : Nat) (xs : List α) :
    ∀ i, eat_atmost_loop n i xs = (xs.take (n - i), xs.drop (n - i + 1)) := by
  induction xs with
  | nil => intro i; simp [eat_atmost_loop]
  | cons x xs ih =>
    intro i
    rw [eat_atmost_loop]
    by_cases h : n ≤ i
    · rw [if_pos h]
      have h0 : n - i = 0 := Nat.sub_eq_zero_of_le h
      simp [h0]
    · rw [if_neg h]
      have h1 : n - i = (n - (i + 1)) + 1 := by omega
      simp only [ih (i + 1), h1]
      simp

/-- Closed form of `eat_atmost` on a result of `L` rows: it returns the
first `min L n` rows, reports truncation exactly when `L > n + 1`, and
consumes `min L (n + 2)` rows from the iterator. -/
theorem eat_atmost_eq (it : List α) (n : Nat) :
    eat_atmost it n = (it.take n, decide (n + 1 < it.length), min it.length (n + 2)) := by
  unfold eat_atmost
  rw [eat_atmost_loop_eq n it 0]
  simp only [Nat.sub_zero]
  rcases h : it.drop (n + 1) with _ | ⟨y, rest⟩
  · have hlen : it.length ≤ n + 1 := by
      have := List.drop_eq_nil_iff.mp h
      omega
    simp only [Prod.mk.injEq, true_and]
    refine ⟨?_, ?_⟩
    · simp; omega
    · omega
  · have hlen : n + 1 < it.length := by
      by_contra hc
      push_neg at hc
      rw [List.drop_eq_nil_iff.mpr (by omega)] at h
      exact List.noConfusion h
    have hrest : rest.length = it.length - (n + 2) := by
      have := congrArg List.length h
      simp [List.length_drop] at this
      omega
    simp only [Prod.mk.injEq, true_and]
    refine ⟨?_, ?_⟩
    · simp [hlen]
    · omega

/-- C1: on a statement yielding column metadata the worker returns at
most `N` rows, but the off-by-one in `eat_atmost`'s loop makes both other
parts of the claim fail, as the spec itself intends otherwise: on a result
of exactly `N + 1` rows all `N + 1` rows are consumed yet `truncated` is
`False` (the spec requires `True`, the extra row is silently dropped), and
on a result of `N + 2` or more rows `N + 2` rows are consumed (the spec
allows at most `N + 1`).  Shown here at the default `N = 1000`. -/
theorem eat_atmost_off_by_one_c1 :
    eat_atmost (List.range 1001) 1000 = (List.range 1000, false, 1001)
      ∧ (eat_atmost (List.range 1002) 1000).2.2 = 1002 := by
  constructor
  · rw [eat_atmost_eq]
    simp [List.take_range]
  · rw [eat_atmost_eq]
    simp

/-! ## The handler decorator and the request loop -/

theorem failure_count_handler_wrap {π : Type} (empty : π)
    (body : Except PyExn π) : failure_count (handler_wrap empty body) ≤ 1 := by
  cases body with
  | ok p => simp [handler_wrap, failure_count]
  | error e => cases e <;> simp [handler_wrap, failure_count]

/-- C3: every supported request (`LoadSchema`, `ViewTable`, `RunQuery`)
produces exactly one result, and in that result at most one of `error`,
`warning`, `internal_error` is set.  Every handler body outcome — normal
return or any raised exception, described by `WorkerEnv` — flows through
the total function `handler_wrap`, so no exception crosses the request
boundary. -/
theorem process_request_one_result_c3 (env : WorkerEnv) (req : Request) :
    (process_request env req).length = 1
      ∧ ∀ r ∈ process_request env req, failure_count r ≤ 1 := by
  cases req <;>
    · refine ⟨rfl, ?_⟩
      intro r hr
      simp only [process_request, List.mem_singleton] at hr
      subst hr
      exact failure_count_handler_wrap _ _

theorem process_request_one_result_c3_witness :
    (process_request ⟨.ok [], .ok ⟨none, []⟩, .ok ⟨none, []⟩⟩ .LoadSchema).length = 1
      ∧ failure_count
          (⟨none, none, none, .schema (some [])⟩ : SQLResultFields ResultPayload) ≤ 1 :=
  ⟨(process_request_one_result_c3 ⟨.ok [], .ok ⟨none, []⟩, .ok ⟨none, []⟩⟩ .LoadSchema).1,
   (process_request_one_result_c3 ⟨.ok [], .ok ⟨none, []⟩, .ok ⟨none, []⟩⟩ .LoadSchema).2
     _ (by simp [process_request, handler_wrap, Except.map])⟩

/-! ## Directive errors surfaced as results -/

theorem handle_RunQuery_directive_path (query : PyStr)
    (outcome : Except PyExn Cursor) (h0 : ¬ query.length = 0)
    (h1 : ['.'].isPrefixOf (py_strip query)) :
    handle_RunQuery query outcome
      = handle_directive (parse_directive (py_strip query)) := by
  unfold handle_RunQuery
  rw [if_neg h0, if_pos h1]

/-- C7: `RunQuery(".frobnicate")` yields exactly one result whose `error`
is the `DirectiveNotFound` built from `argv = [".frobnicate"]` — its
`directive` field is the dotted verb `".frobnicate"`, referencing the
unknown verb `frobnicate` — with `warning` and `internal_error` unset and
no database action issued; in general, every unknown leading-dot verb
raises `DirectiveNotFound` and every known directive with the wrong
argument count raises a plain `DirectiveError`, both caught by the
`handler` decorator rather than escaping. -/
theorem run_query_frobnicate_c7 (execute_outcome : Except PyExn Cursor)
    (argv1 argv2 : List PyStr)
    (h1 : ((argv1.headD []).drop 1)
        ∉ ["run".toList, "dump".toList, "drop_all_tables".toList])
    (h2 : ((argv2.headD []).drop 1 = "run".toList ∧ argv2.length ≠ 2)
        ∨ ((argv2.headD []).drop 1 = "dump".toList ∧ argv2.length ≠ 2)
        ∨ ((argv2.headD []).drop 1 = "drop_all_tables".toList ∧ argv2.length ≠ 1)) :
    run_query_worker ".frobnicate".toList execute_outcome =
        (⟨some (.directive_error
            ⟨"", some [".frobnicate".toList], some ".frobnicate".toList, true⟩),
          none, none, QueryPayload.empty⟩, [])
      ∧ handle_directive argv1 = .error (.directive_error (DirectiveNotFound.init argv1))
      ∧ ∃ m, handle_directive argv2 =
          .error (.directive_error (arity_error m argv2 ((argv2.headD []).drop 1))) := by
  refine ⟨?_, ?_, ?_⟩
  · have he : handle_RunQuery ".frobnicate".toList execute_outcome =
        .error (.directive_error
          ⟨"", some [".frobnicate".toList], some ".frobnicate".toList, true⟩) := by
      rw [handle_RunQuery_directive_path ".frobnicate".toList execute_outcome
        (by decide) (by decide)]
      decide
    simp only [run_query_worker, he, handler_wrap]
  · simp only [List.mem_cons, List.mem_singleton, not_or] at h1
    obtain ⟨hr, hd, ha, -⟩ := h1
    simp only [handle_directive, if_neg hr, if_neg hd, if_neg ha]
  · rcases h2 with ⟨hv, hn⟩ | ⟨hv, hn⟩ | ⟨hv, hn⟩
    · refine ⟨"expects 1 argument, not " ++ toString argv2.length, ?_⟩
      simp only [handle_directive]
      rw [hv]
      simp [hn]
    · refine ⟨"expects 1 argument, not " ++ toString argv2.length, ?_⟩
      simp only [handle_directive]
      rw [hv]
      simp [hn]
    · refine ⟨"expects no argument, not " ++ toString argv2.length, ?_⟩
      simp only [handle_directive]
      rw [hv]
      simp [hn]

theorem run_query_frobnicate_c7_witness :
    (run_query_worker ".frobnicate".toList (.ok ⟨none, []⟩) =
        (⟨some (.directive_error
            ⟨"", some [".frobnicate".toList], some ".frobnicate".toList, true⟩),
          none, none, QueryPayload.empty⟩, [])
      ∧ handle_directive [".fooo".toList] =
          .error (.directive_error (DirectiveNotFound.init [".fooo".toList]))
      ∧ ∃ m, handle_directive [".run".toList] =
          .error (.directive_error (arity_error m [".run".toList]
            ((([".run".toList] : List PyStr).headD []).drop 1)))) :=
  run_query_frobnicate_c7 (.ok ⟨none, []⟩) [".fooo".toList] [".run".toList]
    (by decide) (Or.inl (by constructor <;> decide))

/-! ## Viewport lemmas -/

theorem evict_head_loop_spec {α : Type} :
    ∀ (fuel : Nat) (s : NamedTableView α),
      s.end_window - s.begin_window ≤ fuel →
      s.begin_window ≤ s.end_window →
      (evict_head_loop fuel s).begin_window ≤ (evict_head_loop fuel s).end_window
        ∧ (evict_head_loop fuel s).end_window - (evict_head_loop fuel s).begin_window
            ≤ s.max_window_size
        ∧ (evict_head_loop fuel s).end_window = s.end_window
        ∧ (evict_head_loop fuel s).max_window_size = s.max_window_size := by
  intro fuel
  induction fuel with
  | zero =>
    intro s hf hbe
    refine ⟨?_, ?_, ?_, ?_⟩ <;> simp only [evict_head_loop] <;> omega
  | succ fuel ih =>
    intro s hf hbe
    rw [evict_head_loop]
    by_cases h : s.max_window_size < s.end_window - s.begin_window
    · rw [if_pos h]
      have := ih { s with tree_items := s.tree_items.tail
                          begin_window := s.begin_window + 1 }
        (by simp; omega) (by simp; omega)
      simpa using this
    · rw [if_neg h]
      omega

theorem evict_head_spec {α : Type} (s : NamedTableView α)
    (hbe : s.begin_window ≤ s.end_window) :
    (evict_head s).begin_window ≤ (evict_head s).end_window
      ∧ (evict_head s).end_window - (evict_head s).begin_window ≤ s.max_window_size
      ∧ (evict_head s).end_window = s.end_window
      ∧ (evict_head s).max_window_size = s.max_window_size :=
  evict_head_loop_spec (s.end_window - s.begin_window) s (le_refl _) hbe

theorem evict_tail_loop_spec {α : Type} :
    ∀ (fuel : Nat) (s : NamedTableView α),
      s.end_window - s.begin_window ≤ fuel →
      s.begin_window ≤ s.end_window →
      (evict_tail_loop fuel s).begin_window ≤ (evict_tail_loop fuel s).end_window
        ∧ (evict_tail_loop fuel s).end_window - (evict_tail_loop fuel s).begin_window
            ≤ s.max_window_size
        ∧ (evict_tail_loop fuel s).begin_window = s.begin_window
        ∧ (evict_tail_loop fuel s).max_window_size = s.max_window_size := by
  intro fuel
  induction fuel with
  | zero =>
    intro s hf hbe
    refine ⟨?_, ?_, ?_, ?_⟩ <;> simp only [evict_tail_loop] <;> omega
  | succ fuel ih =>
    intro s hf hbe
    rw [evict_tail_loop]
    by_cases h : s.max_window_size < s.end_window - s.begin_window
    · rw [if_pos h]
      have := ih { s with tree_items := s.tree_items.dropLast
                          end_window := s.end_window - 1 }
        (by simp; omega) (by simp; omega)
      simpa using this
    · rw [if_neg h]
      omega

theorem evict_tail_spec {α : Type} (s : NamedTableView α)
    (hbe : s.begin_window ≤ s.end_window) :
    (evict_tail s).begin_window ≤ (evict_tail s).end_window
      ∧ (evict_tail s).end_window - (evict_tail s).begin_window ≤ s.max_window_size
      ∧ (evict_tail s).begin_window = s.begin_window
      ∧ (evict_tail s).max_window_size = s.max_window_size :=
  evict_tail_loop_spec (s.end_window - s.begin_window) s (le_refl _) hbe

theorem clear_all_loop_fields {α : Type} :
    ∀ (fuel : Nat) (s : NamedTableView α),
      (clear_all_loop fuel s).max_window_size = s.max_window_size
        ∧ (clear_all_loop fuel s).begin_window = s.begin_window := by
  intro fuel
  induction fuel with
  | zero => intro s; simp [clear_all_loop]
  | succ fuel ih =>
    intro s
    rw [clear_all_loop]
    by_cases h : s.begin_window < s.end_window
    · rw [if_pos h]
      simpa using ih _
    · rw [if_neg h]
      exact ⟨rfl, rfl⟩

/-- Running `clear_all` under the representation invariant (the tree holds exactly
the rows of `[begin_window, end_window)`): it empties the tree and pulls
`end_window` down to `begin_window`. -/
theorem clear_all_loop_eq {α : Type} :
    ∀ (fuel : Nat) (s : NamedTableView α),
      s.end_window - s.begin_window ≤ fuel →
      s.begin_window ≤ s.end_window →
      s.tree_items.length = s.end_window - s.begin_window →
      clear_all_loop fuel s
        = { s with end_window := s.begin_window, tree_items := [] } := by
  intro fuel
  induction fuel with
  | zero =>
    intro s hf hbe hlen
    have hnil : s.tree_items = [] := by
      cases h : s.tree_items with
      | nil => rfl
      | cons a l => rw [h] at hlen; simp at hlen; omega
    have he : s.end_window = s.begin_window := by omega
    simp only [clear_all_loop]
    cases s
    simp_all
  | succ fuel ih =>
    intro s hf hbe hlen
    rw [clear_all_loop]
    by_cases h : s.begin_window < s.end_window
    · rw [if_pos h]
      have hrec := ih { s with tree_items := s.tree_items.dropLast
                               end_window := s.end_window - 1 }
        (by simp; omega) (by simp; omega)
        (by simp [List.length_dropLast]; omega)
      simpa using hrec
    · rw [if_neg h]
      have he : s.end_window = s.begin_window := by omega
      have hnil : s.tree_items = [] := by
        cases hx : s.tree_items with
        | nil => rfl
        | cons a l => rw [hx] at hlen; simp at hlen; omega
      cases s
      simp_all

theorem evict_head_bounds {α : Type} (t : NamedTableView α)
    (hbe : t.begin_window ≤ t.end_window) :
    (evict_head t).begin_window ≤ (evict_head t).end_window
      ∧ (evict_head t).end_window - (evict_head t).begin_window
          ≤ (evict_head t).max_window_size := by
  obtain ⟨g1, g2, g3, g4⟩ := evict_head_spec t hbe
  exact ⟨g1, by omega⟩

theorem evict_tail_bounds {α : Type} (t : NamedTableView α)
    (hbe : t.begin_window ≤ t.end_window) :
    (evict_tail t).begin_window ≤ (evict_tail t).end_window
      ∧ (evict_tail t).end_window - (evict_tail t).begin_window
          ≤ (evict_tail t).max_window_size := by
  obtain ⟨g1, g2, g3, g4⟩ := evict_tail_spec t hbe
  exact ⟨g1, by omega⟩

/-- The merge phase keeps `begin_window ≤ end_window` and the size bound,
provided the incoming state satisfies them and the batch itself fits in
`max_window_size` (every fetch the program issues asks for at most
`max_window_size` rows). -/
theorem insert_merge_invariant {α : Type} (s : NamedTableView α)
    (rows : List α) (offset : Nat)
    (hbe : s.begin_window ≤ s.end_window)
    (hsz : s.end_window - s.begin_window ≤ s.max_window_size)
    (hrows : rows.length ≤ s.max_window_size) :
    (insert_merge s rows offset).begin_window
        ≤ (insert_merge s rows offset).end_window
      ∧ (insert_merge s rows offset).end_window
            - (insert_merge s rows offset).begin_window
          ≤ (insert_merge s rows offset).max_window_size := by
  simp only [insert_merge]
  split_ifs with hcont happ hprep
  · exact ⟨hbe, by omega⟩
  · exact evict_head_bounds _ (by simp [append_rows]; omega)
  · exact evict_tail_bounds _ (by simp; omega)
  · have hm := (clear_all_loop_fields
      (({ s with previous_visible_item := none } : NamedTableView α).end_window
        - ({ s with previous_visible_item := none } : NamedTableView α).begin_window)
      { s with previous_visible_item := none }).1
    simp only [append_rows, clear_all]
    simp only at hm
    constructor
    · simp
    · simp
      omega

/-- C2 (counterexample): from the window state `[10, 12)` with
`max_window_size = 2` — a state satisfying the claim's hypotheses
`begin_window ≤ end_window` and a set `max_window_size` — merging a
disjoint 5-row batch at offset 0 replaces the window with the batch
verbatim and no eviction runs, leaving a settled window of size `5 > 2`:
the claimed invariant does not hold for every such state and batch. -/
theorem insert_breaks_bound_counterexample_c2 :
    ((⟨10, 12, [0, 1], none, 2, 0⟩ : NamedTableView Nat).begin_window
        ≤ (⟨10, 12, [0, 1], none, 2, 0⟩ : NamedTableView Nat).end_window)
      ∧ (⟨10, 12, [0, 1], none, 2, 0⟩ : NamedTableView Nat).insert [7, 7, 7, 7, 7] 0 5
          = ⟨0, 5, [7, 7, 7, 7, 7], none, 2, 0⟩
      ∧ ¬ ((⟨0, 5, [7, 7, 7, 7, 7], none, 2, 0⟩ : NamedTableView Nat).end_window
            - (⟨0, 5, [7, 7, 7, 7, 7], none, 2, 0⟩ : NamedTableView Nat).begin_window
          ≤ (⟨0, 5, [7, 7, 7, 7, 7], none, 2, 0⟩ : NamedTableView Nat).max_window_size) := by
  refine ⟨by decide, by decide, by decide⟩

/-- C2 (amended): the viewport invariant holds as an invariant — for
every window state already satisfying `begin_window ≤ end_window` and
`end_window − begin_window ≤ max_window_size`, and every arriving
`RowBatch` of at most `max_window_size` rows (every fetch the program
issues requests at most that many), after the merge settles
`begin_window ≤ end_window` and `end_window − begin_window ≤
max_window_size` again. -/
theorem insert_window_invariant_c2 {α : Type} (s : NamedTableView α)
    (rows : List α) (offset limit : Nat)
    (hbe : s.begin_window ≤ s.end_window)
    (hsz : s.end_window - s.begin_window ≤ s.max_window_size)
    (hrows : rows.length ≤ s.max_window_size) :
    (s.insert rows offset limit).begin_window
        ≤ (s.insert rows offset limit).end_window
      ∧ (s.insert rows offset limit).end_window
            - (s.insert rows offset limit).begin_window
          ≤ (s.insert rows offset limit).max_window_size := by
  simp only [NamedTableView.insert]
  split_ifs with h0 hem
  · exact ⟨hbe, by omega⟩
  · exact insert_merge_invariant _ rows offset (by simp) (by simp)
      (by simpa using hrows)
  · exact insert_merge_invariant s rows offset hbe hsz hrows

theorem insert_window_invariant_c2_witness :
    ((⟨3, 5, [0, 1], none, 3, 0⟩ : NamedTableView Nat).begin_window
        ≤ (⟨3, 5, [0, 1], none, 3, 0⟩ : NamedTableView Nat).end_window)
      ∧ ((⟨3, 5, [0, 1], none, 3, 0⟩ : NamedTableView Nat).end_window
            - (⟨3, 5, [0, 1], none, 3, 0⟩ : NamedTableView Nat).begin_window
          ≤ (⟨3, 5, [0, 1], none, 3, 0⟩ : NamedTableView Nat).max_window_size)
      ∧ ([9, 9].length ≤ (⟨3, 5, [0, 1], none, 3, 0⟩ : NamedTableView Nat).max_window_size)
      ∧ (((⟨3, 5, [0, 1], none, 3, 0⟩ : NamedTableView Nat).insert [9, 9] 5 2).begin_window
            ≤ ((⟨3, 5, [0, 1], none, 3, 0⟩ : NamedTableView Nat).insert [9, 9] 5 2).end_window
          ∧ ((⟨3, 5, [0, 1], none, 3, 0⟩ : NamedTableView Nat).insert [9, 9] 5 2).end_window
                - ((⟨3, 5, [0, 1], none, 3, 0⟩ : NamedTableView Nat).insert [9, 9] 5 2).begin_window
              ≤ ((⟨3, 5, [0, 1], none, 3, 0⟩ : NamedTableView Nat).insert [9, 9] 5 2).max_window_size) :=
  ⟨by decide, by decide, by decide,
   insert_window_invariant_c2 (⟨3, 5, [0, 1], none, 3, 0⟩ : NamedTableView Nat)
     [9, 9] 5 2 (by decide) (by decide) (by decide)⟩

/-- C4 (Scenario A): with `max_window_size = 40` and the window at
`[0, 40)`, merging the 10-row batch fetched at offset 40 appends the rows
past the end and evicts 10 rows from the head, leaving exactly the window
`[10, 50)`.  (The table size only determines that the fetch returned 10
rows; the merge itself never consults it.) -/
theorem insert_scenario_a_c4 :
    NamedTableView.insert (⟨0, 40, List.range 40, none, 40, 10⟩ : NamedTableView Nat)
        ((List.range 10).map (fun i => i + 40)) 40 10
      = ⟨10, 50, (List.range 40).map (fun i => i + 10), none, 40, 10⟩ := by
  decide

/-- C8: merging a `RowBatch` whose range `[offset, offset + len)` already
lies inside `[begin_window, end_window)` leaves the view — bounds, tree
content and every other field — unchanged. -/
theorem insert_contained_noop_c8 {α : Type} (s : NamedTableView α)
    (rows : List α) (offset limit : Nat)
    (h1 : s.begin_window ≤ offset)
    (h2 : offset + rows.length ≤ s.end_window) :
    s.insert rows offset limit = s := by
  simp only [NamedTableView.insert]
  by_cases h0 : offset = offset + rows.length
  · rw [if_pos h0]
  · rw [if_neg h0]
    have hne : ¬ (s.begin_window = 0 ∧ s.end_window = 0) := by
      rintro ⟨hb, he⟩
      omega
    rw [if_neg hne]
    simp only [insert_merge]
    rw [if_pos ⟨h1, h2⟩]

theorem insert_contained_noop_c8_witness :
    ((⟨1, 4, [0, 1, 2], none, 5, 1⟩ : NamedTableView Nat).begin_window ≤ 2)
      ∧ (2 + [9].length ≤ (⟨1, 4, [0, 1, 2], none, 5, 1⟩ : NamedTableView Nat).end_window)
      ∧ (⟨1, 4, [0, 1, 2], none, 5, 1⟩ : NamedTableView Nat).insert [9] 2 1
          = ⟨1, 4, [0, 1, 2], none, 5, 1⟩ :=
  ⟨by decide, by decide,
   insert_contained_noop_c8 (⟨1, 4, [0, 1, 2], none, 5, 1⟩ : NamedTableView Nat)
     [9] 2 1 (by decide) (by decide)⟩

/-- C10: `restore_state` on a snapshot with `begin_window = end_window =
0` (`is_empty`) returns immediately: the view keeps every field —
window bounds, tree content, `max_window_size`, `inc_limit`,
`previous_visible_item` — and no fetch is issued. -/
theorem restore_state_empty_noop_c10 {α : Type} (s : NamedTableView α)
    (visible_item : Option Nat) :
    s.restore_state ⟨0, 0, visible_item⟩ = (s, none) := by
  simp [NamedTableView.restore_state, ViewSnapshot.is_empty]

theorem evict_head_eq_self {α : Type} (t : NamedTableView α)
    (h : t.end_window - t.begin_window ≤ t.max_window_size) :
    evict_head t = t := by
  unfold evict_head
  cases hf : t.end_window - t.begin_window with
  | zero => rfl
  | succ n => rw [evict_head_loop, if_neg (by omega)]

/-- Re-anchoring an already empty view at its own `begin_window` is the
identity: the `begin_window == end_window == 0` normalization step of
`insert` never changes a state whose two bounds already equal the batch
offset. -/
theorem insert_norm_eq_self {α : Type} (t : NamedTableView α) (offset : Nat)
    (h1 : t.begin_window = offset) (h2 : t.end_window = offset) :
    (if t.begin_window = 0 ∧ t.end_window = 0 then
      { t with begin_window := offset, end_window := offset }
     else t) = t := by
  split_ifs with h
  · cases t
    simp_all
  · rfl

/-- C5: on an unmodified table, `save_state` followed by `restore_state`
— which clears the window, sets `max_window_size` to the saved span and
issues the single fetch `(begin_window, end_window - begin_window)` —
reproduces, once that fetch's batch merges, the very same window bounds
and window content. -/
theorem save_restore_round_trip_c5 {α : Type} (table : List α)
    (s : NamedTableView α) (vis : Option Nat)
    (hne : s.begin_window < s.end_window)
    (hlen : s.end_window ≤ table.length)
    (hcontent : s.tree_items
      = slice_table table s.begin_window (s.end_window - s.begin_window)) :
    (s.restore_state (s.save_state vis)).2
        = some (s.begin_window, s.end_window - s.begin_window)
      ∧ ((s.restore_state (s.save_state vis)).1.insert
            (slice_table table s.begin_window (s.end_window - s.begin_window))
            s.begin_window (s.end_window - s.begin_window)).begin_window
          = s.begin_window
      ∧ ((s.restore_state (s.save_state vis)).1.insert
            (slice_table table s.begin_window (s.end_window - s.begin_window))
            s.begin_window (s.end_window - s.begin_window)).end_window
          = s.end_window
      ∧ ((s.restore_state (s.save_state vis)).1.insert
            (slice_table table s.begin_window (s.end_window - s.begin_window))
            s.begin_window (s.end_window - s.begin_window)).tree_items
          = s.tree_items := by
  have hitems : s.tree_items.length = s.end_window - s.begin_window := by
    rw [hcontent]
    simp [slice_table]
    omega
  have hemp : ViewSnapshot.is_empty (s.save_state vis) = false := by
    simp [ViewSnapshot.is_empty, NamedTableView.save_state]
    omega
  have hrest : s.restore_state (s.save_state vis)
      = ({ s with end_window := s.begin_window, tree_items := [],
                  previous_visible_item := vis,
                  max_window_size := s.end_window - s.begin_window,
                  inc_limit :=
                    (s.end_window - s.begin_window) / BUFFER_SIZE_FACTOR },
         some (s.begin_window, s.end_window - s.begin_window)) := by
    rw [NamedTableView.restore_state, if_neg (by simp [hemp])]
    rw [clear_all, clear_all_loop_eq _ _ le_rfl (by omega) hitems]
    simp [update_inc_limit, NamedTableView.save_state]
  have hins : ∀ (rows : List α), rows.length = s.end_window - s.begin_window →
      NamedTableView.insert
          ({ s with end_window := s.begin_window, tree_items := [],
                    previous_visible_item := vis,
                    max_window_size := s.end_window - s.begin_window,
                    inc_limit :=
                      (s.end_window - s.begin_window) / BUFFER_SIZE_FACTOR }
            : NamedTableView α)
          rows s.begin_window (s.end_window - s.begin_window)
        = { s with end_window := s.begin_window + rows.length,
                   tree_items := rows, previous_visible_item := none,
                   max_window_size := s.end_window - s.begin_window,
                   inc_limit :=
                     (s.end_window - s.begin_window) / BUFFER_SIZE_FACTOR } := by
    intro rows hrlen
    rw [NamedTableView.insert]
    rw [if_neg (by omega)]
    rw [insert_norm_eq_self _ s.begin_window (by simp) (by simp)]
    rw [insert_merge]
    rw [if_neg (by
      rintro ⟨-, hc⟩
      have hc2 : s.begin_window + rows.length ≤ s.begin_window := hc
      omega)]
    rw [if_pos (by simp)]
    simp only [append_rows, List.nil_append]
    rw [evict_head_eq_self _ (by simp; omega)]
    simp
  rw [hrest]
  refine ⟨rfl, ?_⟩
  rw [hins (slice_table table s.begin_window (s.end_window - s.begin_window))
    (by simp [slice_table]; omega)]
  refine ⟨rfl, by simp [slice_table]; omega, by simp [hcontent]⟩

theorem save_restore_round_trip_c5_witness :
    ((1 : Nat) < 3)
      ∧ ((3 : Nat) ≤ [5, 6, 7, 8].length)
      ∧ (([6, 7] : List Nat) = slice_table [5, 6, 7, 8] 1 2)
      ∧ (((⟨1, 3, [6, 7], none, 7, 2⟩ : NamedTableView Nat).restore_state
            ((⟨1, 3, [6, 7], none, 7, 2⟩ : NamedTableView Nat).save_state (some 1))).2
          = some (1, 2)
        ∧ (((⟨1, 3, [6, 7], none, 7, 2⟩ : NamedTableView Nat).restore_state
              ((⟨1, 3, [6, 7], none, 7, 2⟩ : NamedTableView Nat).save_state
                (some 1))).1.insert
              (slice_table [5, 6, 7, 8] 1 2) 1 2).begin_window = 1
        ∧ (((⟨1, 3, [6, 7], none, 7, 2⟩ : NamedTableView Nat).restore_state
              ((⟨1, 3, [6, 7], none, 7, 2⟩ : NamedTableView Nat).save_state
                (some 1))).1.insert
              (slice_table [5, 6, 7, 8] 1 2) 1 2).end_window = 3
        ∧ (((⟨1, 3, [6, 7], none, 7, 2⟩ : NamedTableView Nat).restore_state
              ((⟨1, 3, [6, 7], none, 7, 2⟩ : NamedTableView Nat).save_state
                (some 1))).1.insert
              (slice_table [5, 6, 7, 8] 1 2) 1 2).tree_items = [6, 7]) :=
  ⟨by decide, by decide, by decide,
   save_restore_round_trip_c5 [5, 6, 7, 8] ⟨1, 3, [6, 7], none, 7, 2⟩ (some 1)
     (by decide) (by decide) (by decide)⟩

/-! ## Lazy loading -/

/-- C6 (counterexample): window `[5, 45)`, `max_window_size = 40`,
`inc_limit = 40 / 4 = 10`, scrollbar at the top (`begin_index = 1/10 ≤
0.2`) with `begin_window = 5 > 0`.  The claimed fetch size
`max(max_window_size − resident_count, increment)` is `10`, but
`lazy_load` clamps the fetch at the start of the table and requests only
`5` rows (offset 0). -/
theorem lazy_load_clamped_counterexample_c6 :
    NamedTableView.lazy_load
        (⟨5, 45, List.replicate 40 0, none, 40, 10⟩ : NamedTableView Nat)
        (1/10) (1/2)
        = [(0, 5)]
      ∧ spec_fetch_size
          (⟨5, 45, List.replicate 40 0, none, 40, 10⟩ : NamedTableView Nat) = 10
      ∧ (5 : Int) ≠ 10 := by
  refine ⟨?_, by decide, by decide⟩
  norm_num [NamedTableView.lazy_load]

/-- C6 (amended): with `inc_limit = max_window_size / 4` (as
`_update_inc_limit` sets it), a bottom-20% scroll position with
`begin_window > 0` fetches the rows just before `begin_window`, of size
`min(begin_window, max(max_window_size − resident_count, increment))` —
the claimed size clamped so the fetch never reaches before row 0 — and a
top-80% position fetches after `end_window` with the claimed size, except
that when the backward fetch also fired the forward fetch reuses its
clamped size (the Python code reassigns `limit` in the first branch). -/
theorem lazy_load_fetches_c6_amended {α : Type} (s : NamedTableView α)
    (bi ei : ℚ)
    (hinc : s.inc_limit = s.max_window_size / BUFFER_SIZE_FACTOR) :
    s.lazy_load bi ei =
      (if 0 < s.begin_window ∧ bi ≤ 1/5 then
        [(max 0 ((s.begin_window : Int) - spec_fetch_size s),
          min ((s.begin_window : Int)) (spec_fetch_size s))]
       else [])
      ++ (if (4/5 : ℚ) ≤ ei then
            [((s.end_window : Int),
              if 0 < s.begin_window ∧ bi ≤ 1/5 then
                min ((s.begin_window : Int)) (spec_fetch_size s)
              else spec_fetch_size s)]
          else []) := by
  simp only [NamedTableView.lazy_load, spec_fetch_size]
  split_ifs <;> simp_all <;> omega

theorem lazy_load_fetches_c6_amended_witness :
    ((⟨12, 20, List.replicate 8 0, none, 16, 4⟩ : NamedTableView Nat).inc_limit
        = (⟨12, 20, List.replicate 8 0, none, 16, 4⟩
            : NamedTableView Nat).max_window_size / BUFFER_SIZE_FACTOR)
      ∧ NamedTableView.lazy_load
          (⟨12, 20, List.replicate 8 0, none, 16, 4⟩ : NamedTableView Nat)
          (1/10) (9/10) =
        (if 0 < (⟨12, 20, List.replicate 8 0, none, 16, 4⟩
              : NamedTableView Nat).begin_window ∧ (1/10 : ℚ) ≤ 1/5 then
          [(max 0 (((⟨12, 20, List.replicate 8 0, none, 16, 4⟩
                : NamedTableView Nat).begin_window : Int)
              - spec_fetch_size (⟨12, 20, List.replicate 8 0, none, 16, 4⟩
                  : NamedTableView Nat)),
            min (((⟨12, 20, List.replicate 8 0, none, 16, 4⟩
                : NamedTableView Nat).begin_window : Int))
              (spec_fetch_size (⟨12, 20, List.replicate 8 0, none, 16, 4⟩
                : NamedTableView Nat)))]
         else [])
        ++ (if (4/5 : ℚ) ≤ (9/10 : ℚ) then
              [(((⟨12, 20, List.replicate 8 0, none, 16, 4⟩
                  : NamedTableView Nat).end_window : Int),
                if 0 < (⟨12, 20, List.replicate 8 0, none, 16, 4⟩
                    : NamedTableView Nat).begin_window ∧ (1/10 : ℚ) ≤ 1/5 then
                  min (((⟨12, 20, List.replicate 8 0, none, 16, 4⟩
                      : NamedTableView Nat).begin_window : Int))
                    (spec_fetch_size (⟨12, 20, List.replicate 8 0, none, 16, 4⟩
                      : NamedTableView Nat))
                else spec_fetch_size (⟨12, 20, List.replicate 8 0, none, 16, 4⟩
                    : NamedTableView Nat))]
            else []) :=
  ⟨by decide,
   lazy_load_fetches_c6_amended
     (⟨12, 20, List.replicate 8 0, none, 16, 4⟩ : NamedTableView Nat)
     (1/10) (9/10) (by decide)⟩

/-! ## Fetch issuance has no pending-fetch guard -/

theorem fetch_queue_foldl {β : Type} (g : β → Request) :
    ∀ (l : List β) (q : List Request),
      l.foldl (fun acc x => acc ++ [g x]) q
        = q ++ l.foldl (fun acc x => acc ++ [g x]) [] := by
  intro l
  induction l with
  | nil => intro q; simp
  | cons a l ih =>
    intro q
    simp only [List.foldl_cons]
    rw [ih (q ++ [g a]), ih ([] ++ [g a])]
    simp

/-- C9 (counterexample): with the window at `[40, 80)` and a top-area
scroll fraction, one scroll event issues `ViewTable("t", 30, 10)`; the
window state is unchanged by issuing it, nothing records a pending fetch,
and a second scroll event before any merge issues the identical request
again — two `ViewTableSlice` requests for the same table are pending at
once, contradicting the claimed no-op. -/
theorem scroll_issues_duplicate_fetch_c9 :
    (scroll_step "t" (scroll_step "t"
        ⟨⟨40, 80, List.replicate 40 0, none, 40, 10⟩, []⟩ (1/10) (1/2))
        (1/10) (1/2)).requests
      = [Request.ViewTable "t" 30 10, Request.ViewTable "t" 30 10] := by
  norm_num [scroll_step, NamedTableView.lazy_load, fetcher_call]
  decide

/-- C9 (amended): a fetch intent arising while a fetch for the table is
already pending is not suppressed — neither `lazy_load` nor `Fetcher`
consults any pending state.  Every scroll event appends exactly the
fetches `lazy_load` computes from the window alone, regardless of the
requests already queued, and leaves the window state untouched (duplicate
results are later absorbed by the contained-merge no-op). -/
theorem scroll_step_appends_unconditionally_c9 {α : Type}
    (table_name : String) (v : NamedTableView α) (q : List Request)
    (bi ei : ℚ) :
    (scroll_step table_name ⟨v, q⟩ bi ei).view = v
      ∧ (scroll_step table_name ⟨v, q⟩ bi ei).requests
          = q ++ (scroll_step table_name ⟨v, []⟩ bi ei).requests := by
  constructor
  · rfl
  · simp only [scroll_step, fetcher_call]
    exact fetch_queue_foldl
      (fun f => Request.ViewTable table_name f.1.toNat f.2.toNat)
      (v.lazy_load bi ei) q

end Picosqlite
